import Mathlib

/-!
Shallow embedding of `src/siri/siri.c` (SiriDB server bootstrap and
lifecycle core): the database-directory bootstrapper
(`siridb_load_databases`), the startup sequence (`siri_start`), the
shutdown path (`signal_handler`, `close_handlers`,
`walk_close_handlers`) and the final teardown (`siri_free`).

Paths and directory-entry names are modelled as `List Char` (the C code
works on `char *` buffers).  Calls into external collaborators
(`cfgparser_read`, `qp_from_file_unpacker`, `siridb_from_unpacker`,
`siridb_users_load`, ...) are modelled by their outcome, recorded on the
candidate directory: the bootstrapper only branches on whether each call
succeeded, plus the data it reads out (the database name and the
`buffer.buffer_path` option).  Effectful straight-line code is modelled
as the list of externally visible events it performs, in order.
-/

/-- Paths and names, as the C code's `char *` data. -/
abbrev Str := List Char

/-- Type tag of a `cfgparser` option value (`option->tp`). -/
inductive CfgTp
  | string
  | integer
  | real
  | sectionTp
  deriving DecidableEq, Repr

/-- One entry of the database container directory (`readdir` result),
together with the outcome of every external call the load pipeline makes
on it: `fstatat`, `S_ISDIR`, `access(database.conf, R_OK)`,
`cfgparser_read`, `qp_from_file_unpacker`, `siridb_from_unpacker`
(which yields `dbname`), `cfgparser_get_option("buffer","buffer_path")`
(`none` when the option is absent), and the six load stages
`siridb_users_load`, `siridb_servers_load`, `siridb_series_load`,
`siridb_load_buffer`, `siridb_buffer_open`, `siridb_shards_load`. -/
structure Candidate where
  name : Str
  statOk : Bool
  isDir : Bool
  confReadable : Bool
  confParseOk : Bool
  datUnpackOk : Bool
  fromUnpackerOk : Bool
  dbname : Str
  bufferOption : Option (CfgTp × Str)
  usersOk : Bool
  serversOk : Bool
  seriesOk : Bool
  bufferLoadOk : Bool
  bufferOpenOk : Bool
  shardsOk : Bool
  deriving DecidableEq, Repr

/-- A loaded database instance (`siridb_t`), restricted to the fields
`siridb_load_databases` itself assigns: `dbname` (set by
`siridb_from_unpacker`), `dbpath` and `buffer_path`. -/
structure SiriDB where
  dbname : Str
  dbpath : Str
  bufferPath : Str
  deriving DecidableEq, Repr

/-- Name filter of the readdir loop (siri.c lines 126-132): skip `"."`
(`strlen == 1 && strcmp(name, ".") == 0`) and any name of length at
least 2 whose first two characters are `".."` or `"__"`
(`strncmp(name, "..", 2) == 0 || strncmp(name, "__", 2) == 0`). -/
def skipByName (s : Str) : Bool :=
  (s.length == 1 && s == ['.']) ||
  (decide (2 ≤ s.length) &&
    (s.take 2 == ['.', '.'] || s.take 2 == ['_', '_']))

/-- `dbpath` and `buffer_path` assignment for a candidate that survived
`siridb_from_unpacker` (siri.c lines 197-216): `dbpath` is
`snprintf("%s%s/", default_db_path, d_name)`; `buffer_path` is the
`buffer.buffer_path` option value when `cfgparser_get_option` succeeded
and the option is of string type, else `dbpath` itself. -/
def mkInstance (base : Str) (e : Candidate) : SiriDB :=
  let dbpath := base ++ e.name ++ ['/']
  { dbname := e.dbname
    dbpath := dbpath
    bufferPath :=
      match e.bufferOption with
      | some (tp, s) => if tp = CfgTp.string then s else dbpath
      | none => dbpath }

/-- State threaded through `siridb_load_databases`: the return code so
far, the registry (`siri.siridb_list`, in append order), the names
passed to the load pipeline (candidates reaching `cfgparser_new`, siri.c
line 150), the `mkdir` calls made (path and mode), and the number of
`log_error` calls. -/
structure LoadResult where
  rc : Nat
  registry : List SiriDB
  loaded : List Str
  mkdirCalls : List (Str × Nat)
  logErrors : Nat
  deriving DecidableEq, Repr

/-- Outcome of one iteration of the readdir loop: `cont` proceeds to the
next entry, `stop` returns from `siridb_load_databases` at once. -/
inductive StepRes
  | cont (acc : LoadResult)
  | stop (acc : LoadResult)
  deriving DecidableEq, Repr

/-- The state carried by a step outcome. -/
def StepRes.acc : StepRes → LoadResult
  | .cont a => a
  | .stop a => a

/-- One iteration of the readdir loop of `siridb_load_databases`
(siri.c lines 122-282), for entry `e`: the name filter, the
`fstatat`/`S_ISDIR`/`access` skips, then the pipeline — config parse,
`database.dat` unpack, `siridb_from_unpacker`, append to the registry
(line 190, before the remaining stages), `dbpath`/`buffer_path`
assignment, then users, servers, series, buffer load, buffer open,
shards.  Each pipeline failure logs an error and returns 1. -/
def processEntry (base : Str) (e : Candidate) (acc : LoadResult) : StepRes :=
  if skipByName e.name then .cont acc
  else if !e.statOk then .cont acc
  else if !e.isDir then .cont acc
  else if !e.confReadable then .cont acc
  else
    let acc := { acc with loaded := acc.loaded ++ [e.name] }
    if !e.confParseOk then
      .stop { acc with rc := 1, logErrors := acc.logErrors + 1 }
    else if !e.datUnpackOk then
      .stop { acc with rc := 1, logErrors := acc.logErrors + 1 }
    else if !e.fromUnpackerOk then
      .stop { acc with rc := 1, logErrors := acc.logErrors + 1 }
    else
      let acc := { acc with registry := acc.registry ++ [mkInstance base e] }
      if !e.usersOk then
        .stop { acc with rc := 1, logErrors := acc.logErrors + 1 }
      else if !e.serversOk then
        .stop { acc with rc := 1, logErrors := acc.logErrors + 1 }
      else if !e.seriesOk then
        .stop { acc with rc := 1, logErrors := acc.logErrors + 1 }
      else if !e.bufferLoadOk then
        .stop { acc with rc := 1, logErrors := acc.logErrors + 1 }
      else if !e.bufferOpenOk then
        .stop { acc with rc := 1, logErrors := acc.logErrors + 1 }
      else if !e.shardsOk then
        .stop { acc with rc := 1, logErrors := acc.logErrors + 1 }
      else .cont acc

/-- The readdir loop over the remaining entries. -/
def processEntries (base : Str) : List Candidate → LoadResult → LoadResult
  | [], acc => acc
  | e :: rest, acc =>
    match processEntry base e acc with
    | .cont acc => processEntries base rest acc
    | .stop acc => acc

/-- Environment of one `siridb_load_databases` call: the configured
container path `siri.cfg->default_db_path`, whether `stat` finds it,
whether `mkdir` would succeed, whether `opendir` succeeds, and the
directory entries `readdir` yields, in order. -/
structure Env where
  defaultDbPath : Str
  baseExists : Bool
  mkdirOk : Bool
  opendirOk : Bool
  entries : List Candidate
  deriving DecidableEq, Repr

/-- The initial `LoadResult`. -/
def emptyResult : LoadResult :=
  { rc := 0, registry := [], loaded := [], mkdirCalls := [], logErrors := 0 }

/-- `siridb_load_databases` (siri.c lines 89-286): if `stat` on the
container path fails, call `mkdir(path, 0700)` and return 1 when it
fails; return 1 when `opendir` fails; otherwise run the readdir loop. -/
def siridb_load_databases (env : Env) : LoadResult :=
  let r0 : LoadResult :=
    { emptyResult with
        mkdirCalls :=
          if env.baseExists then [] else [(env.defaultDbPath, 0o700)] }
  if !env.baseExists && !env.mkdirOk then
    { r0 with rc := 1, logErrors := 1 }
  else if !env.opendirOk then
    { r0 with rc := 1, logErrors := 1 }
  else processEntries env.defaultDbPath env.entries r0

/-- Entry predicates: `entryLoaded` holds when the entry survives every
skip and is passed to the load pipeline; `preAppendOk` when the three
stages before the registry append succeed; `stagesOk` when the six
stages after the append succeed; `entryFails` when the entry reaches the
pipeline and some stage fails. -/
def entryLoaded (e : Candidate) : Bool :=
  !(skipByName e.name) && e.statOk && e.isDir && e.confReadable

/-- Success of the stages before the registry append. -/
def preAppendOk (e : Candidate) : Bool :=
  e.confParseOk && e.datUnpackOk && e.fromUnpackerOk

/-- Success of the six stages after the registry append. -/
def stagesOk (e : Candidate) : Bool :=
  e.usersOk && e.serversOk && e.seriesOk &&
    e.bufferLoadOk && e.bufferOpenOk && e.shardsOk

/-- The entry reaches the pipeline and some stage fails. -/
def entryFails (e : Candidate) : Bool :=
  entryLoaded e && !(preAppendOk e && stagesOk e)

/-- Type tag of a libuv handle (`handle->type`); `other` stands for any
of libuv's remaining handle types. -/
inductive HandleType
  | signal
  | tcp
  | timer
  | async
  | other (n : Nat)
  deriving DecidableEq, Repr

/-- A live libuv handle as `walk_close_handlers` sees it: its type tag
and whether its `data` pointer is NULL. -/
structure Handle where
  type : HandleType
  dataIsNull : Bool
  deriving DecidableEq, Repr

/-- The close callback passed to `uv_close`. -/
inductive CloseCb
  | noCb
  | socketFree
  | freeCb
  deriving DecidableEq, Repr

/-- What `walk_close_handlers` does to one handle: `closeWith stopFirst
cb` is `uv_close(handle, cb)`, preceded by `uv_timer_stop` when
`stopFirst` is true; `assertFail` is the `assert(0)` default branch. -/
inductive CloseAction
  | closeWith (stopFirst : Bool) (cb : CloseCb)
  | assertFail
  deriving DecidableEq, Repr

/-- `walk_close_handlers` (siri.c lines 393-417): dispatch on the handle
type tag.  UV_SIGNAL: close with no callback.  UV_TCP: close with no
callback when `data` is NULL, else with `sirinet_socket_free`.
UV_TIMER: `uv_timer_stop` then close with no callback.  UV_ASYNC: close
with `free`.  Default: `assert(0)`. -/
def walk_close_handlers (h : Handle) : CloseAction :=
  match h.type with
  | .signal => .closeWith false .noCb
  | .tcp => .closeWith false (if h.dataIsNull then .noCb else .socketFree)
  | .timer => .closeWith true .noCb
  | .async => .closeWith false .freeCb
  | .other _ => .assertFail

/-- Externally visible events of `siri_start`, `signal_handler`,
`close_handlers` and `siri_free`, in program order. -/
inductive Ev
  | initListenerTables
  | initProps
  | initAggregates
  | compileGrammar
  | llistNew
  | fhNew
  | loadDatabases
  | loopInit
  | signalInit (i : Nat)
  | bserverInit
  | clserverInit
  | optimizeInit
  | heartbeatInit
  | uvRun
  | cancelOptimize
  | cancelHeartbeat
  | uvStop
  | closeHandle (t : HandleType) (dataIsNull : Bool) (a : CloseAction)
  | uvRunDrain
  | uvLoopClose
  | freeLoop
  | freeGrammar
  | fhFree
  | destroyInstance (db : SiriDB)
  deriving DecidableEq, Repr

/-- `close_handlers` (siri.c lines 369-376): `uv_walk` applies
`walk_close_handlers` to every live handle, then `uv_run` runs the loop
once more so the queued close callbacks execute. -/
def close_handlers (hs : List Handle) : List Ev :=
  hs.map (fun h => Ev.closeHandle h.type h.dataIsNull (walk_close_handlers h))
    ++ [Ev.uvRunDrain]

/-- `signal_handler` (siri.c lines 378-391): cancel the optimize task,
cancel the heartbeat task, `uv_stop` the loop, then `close_handlers`. -/
def signal_handler (hs : List Handle) : List Ev :=
  [Ev.cancelOptimize, Ev.cancelHeartbeat, Ev.uvStop] ++ close_handlers hs

/-- Environment of one `siri_start` call: the load environment, the live
handles at the time `close_handlers` would walk them, and the return
codes of `sirinet_bserver_init` and `sirinet_clserver_init`. -/
structure StartEnv where
  loadEnv : Env
  handles : List Handle
  bserverRc : Nat
  clserverRc : Nat
  deriving Repr

/-- `siri_start` (siri.c lines 288-350) as return code plus event trace:
initialize listener tables, props, aggregates, grammar, registry list
and file handler; run `siridb_load_databases` and return its code when
non-zero; create and init the loop; bind the three signal handlers; init
the back-end server, on failure `close_handlers` and return its code;
init the client server, on failure `close_handlers` and return its code;
init the optimize and heartbeat tasks; `uv_run`; return 0. -/
def siri_start (s : StartEnv) : Nat × List Ev :=
  let pre : List Ev :=
    [Ev.initListenerTables, Ev.initProps, Ev.initAggregates,
     Ev.compileGrammar, Ev.llistNew, Ev.fhNew, Ev.loadDatabases]
  let ld := siridb_load_databases s.loadEnv
  if ld.rc ≠ 0 then (ld.rc, pre)
  else
    let pre2 := pre ++
      [Ev.loopInit, Ev.signalInit 0, Ev.signalInit 1, Ev.signalInit 2]
    if s.bserverRc ≠ 0 then
      (s.bserverRc, pre2 ++ [Ev.bserverInit] ++ close_handlers s.handles)
    else if s.clserverRc ≠ 0 then
      (s.clserverRc,
        pre2 ++ [Ev.bserverInit, Ev.clserverInit] ++ close_handlers s.handles)
    else
      (0, pre2 ++ [Ev.bserverInit, Ev.clserverInit, Ev.optimizeInit,
                   Ev.heartbeatInit, Ev.uvRun])

/-- Modelled from the spec: `llist_free_cb` (the Instance Registry's
bulk teardown, whose source is not part of this tree) applies the given
destructor to every member unconditionally, regardless of outstanding
reference counts. -/
def llist_free_cb (registry : List SiriDB) : List Ev :=
  registry.map Ev.destroyInstance

/-- `siri_free` (siri.c lines 352-367): when `siri.loop` is not NULL,
`uv_loop_close` it (a failure there is only logged); then `free` the
loop pointer, `free` the grammar, `siri_fh_free` the file handler, and
`llist_free_cb` the registry with `siridb_free_cb`. -/
def siri_free (loopIsNull : Bool) (registry : List SiriDB) : List Ev :=
  (if loopIsNull then [] else [Ev.uvLoopClose]) ++
    [Ev.freeLoop, Ev.freeGrammar, Ev.fhFree] ++ llist_free_cb registry

/-! ### Helper lemmas -/

/-- An event that is not a `closeHandle` does not occur in the walk part
of `close_handlers`. -/
theorem count_close_map (hs : List Handle) (x : Ev)
    (hx : ∀ t d a, x ≠ Ev.closeHandle t d a) :
    (hs.map
      (fun h => Ev.closeHandle h.type h.dataIsNull (walk_close_handlers h))).count
        x = 0 := by
  rw [List.count_eq_zero]
  intro hmem
  obtain ⟨h, _, hEq⟩ := List.mem_map.mp hmem
  exact hx _ _ _ hEq.symm

/-! ### Claims -/

/-- C5: `walk_close_handlers` selects the close procedure by the
handle's type tag: a signal handle is closed with no callback; a TCP
handle is closed with no callback exactly when its `data` pointer is
NULL and otherwise with `sirinet_socket_free`; a timer handle is stopped
before it is closed; an async handle is closed with `free`; any other
type reaches the failing assertion. -/
theorem C5_close_dispatch (h : Handle) :
    (h.type = HandleType.signal →
      walk_close_handlers h = CloseAction.closeWith false CloseCb.noCb) ∧
    (h.type = HandleType.tcp →
      ((walk_close_handlers h = CloseAction.closeWith false CloseCb.noCb ↔
          h.dataIsNull = true) ∧
       (h.dataIsNull = false →
         walk_close_handlers h =
           CloseAction.closeWith false CloseCb.socketFree))) ∧
    (h.type = HandleType.timer →
      walk_close_handlers h = CloseAction.closeWith true CloseCb.noCb) ∧
    (h.type = HandleType.async →
      walk_close_handlers h = CloseAction.closeWith false CloseCb.freeCb) ∧
    (∀ n, h.type = HandleType.other n →
      walk_close_handlers h = CloseAction.assertFail) := by
  obtain ⟨t, d⟩ := h
  cases t <;> cases d <;> simp [walk_close_handlers]

/-- C5 witness: the dispatch evaluated on a TCP handle with a non-NULL
payload and on a timer handle. -/
theorem C5_close_dispatch_witness :
    walk_close_handlers ⟨HandleType.tcp, false⟩ =
        CloseAction.closeWith false CloseCb.socketFree ∧
      walk_close_handlers ⟨HandleType.timer, true⟩ =
        CloseAction.closeWith true CloseCb.noCb :=
  ⟨((C5_close_dispatch ⟨HandleType.tcp, false⟩).2.1 rfl).2 rfl,
   (C5_close_dispatch ⟨HandleType.timer, true⟩).2.2.1 rfl⟩

/-- C6: on a delivered signal the shutdown steps run in this strict
order, each exactly once: cancel the optimize task, cancel the heartbeat
task, stop the loop, walk and close every live handle by type, then run
the loop once more so queued close callbacks execute. -/
theorem C6_signal_handler_order (hs : List Handle) :
    signal_handler hs =
      [Ev.cancelOptimize, Ev.cancelHeartbeat, Ev.uvStop] ++
        hs.map
          (fun h => Ev.closeHandle h.type h.dataIsNull (walk_close_handlers h))
          ++ [Ev.uvRunDrain] ∧
    (signal_handler hs).count Ev.cancelOptimize = 1 ∧
    (signal_handler hs).count Ev.cancelHeartbeat = 1 ∧
    (signal_handler hs).count Ev.uvStop = 1 ∧
    (signal_handler hs).count Ev.uvRunDrain = 1 := by
  refine ⟨by simp [signal_handler, close_handlers], ?_, ?_, ?_, ?_⟩ <;>
    simp [signal_handler, close_handlers, List.count_append, List.count_cons,
      count_close_map]

/-- Unfolding of `entryLoaded`. -/
theorem entryLoaded_destruct {e : Candidate} (h : entryLoaded e = true) :
    skipByName e.name = false ∧ e.statOk = true ∧ e.isDir = true ∧
      e.confReadable = true := by
  simp only [entryLoaded, Bool.and_eq_true, Bool.not_eq_true'] at h
  exact ⟨h.1.1.1, h.1.1.2, h.1.2, h.2⟩

/-- `skipByName` as a proposition. -/
theorem skipByName_iff (s : Str) :
    skipByName s = true ↔
      s = ['.'] ∨ (2 ≤ s.length ∧ s.take 2 = ['.', '.']) ∨
        (2 ≤ s.length ∧ s.take 2 = ['_', '_']) := by
  simp only [skipByName, Bool.or_eq_true, Bool.and_eq_true, beq_iff_eq,
    decide_eq_true_eq, Nat.beq_eq_true_eq]
  constructor
  · rintro (⟨_, h⟩ | ⟨hl, h | h⟩)
    · exact Or.inl h
    · exact Or.inr (Or.inl ⟨hl, h⟩)
    · exact Or.inr (Or.inr ⟨hl, h⟩)
  · rintro (h | ⟨hl, h⟩ | ⟨hl, h⟩)
    · exact Or.inl ⟨by rw [h]; rfl, h⟩
    · exact Or.inr ⟨hl, Or.inl h⟩
    · exact Or.inr ⟨hl, Or.inr h⟩

/-- A skipped entry leaves the loop state untouched and continues. -/
theorem processEntry_skip (base : Str) (e : Candidate) (acc : LoadResult)
    (h : entryLoaded e = false) :
    processEntry base e acc = .cont acc := by
  cases h1 : skipByName e.name <;> cases h2 : e.statOk <;>
    cases h3 : e.isDir <;> cases h4 : e.confReadable <;>
      simp_all [processEntry, entryLoaded]

/-- A candidate failing before the registry append (config parse,
`database.dat` unpack, or `siridb_from_unpacker`) stops the loop with
return code 1 and an unchanged registry. -/
theorem processEntry_preFail (base : Str) (e : Candidate) (acc : LoadResult)
    (h : entryLoaded e = true) (hp : preAppendOk e = false) :
    processEntry base e acc =
      .stop { rc := 1, registry := acc.registry,
              loaded := acc.loaded ++ [e.name],
              mkdirCalls := acc.mkdirCalls,
              logErrors := acc.logErrors + 1 } := by
  obtain ⟨h1, h2, h3, h4⟩ := entryLoaded_destruct h
  cases hc : e.confParseOk <;> cases hd : e.datUnpackOk <;>
    cases hf : e.fromUnpackerOk <;>
      simp_all [processEntry, preAppendOk]

/-- A candidate failing after the registry append (users, servers,
series, buffer load, buffer open, shards) stops the loop with return
code 1, the partially loaded instance left in the registry. -/
theorem processEntry_postFail (base : Str) (e : Candidate) (acc : LoadResult)
    (h : entryLoaded e = true) (hp : preAppendOk e = true)
    (hs : stagesOk e = false) :
    processEntry base e acc =
      .stop { rc := 1, registry := acc.registry ++ [mkInstance base e],
              loaded := acc.loaded ++ [e.name],
              mkdirCalls := acc.mkdirCalls,
              logErrors := acc.logErrors + 1 } := by
  obtain ⟨h1, h2, h3, h4⟩ := entryLoaded_destruct h
  simp only [preAppendOk, Bool.and_eq_true] at hp
  obtain ⟨⟨hc, hd⟩, hf⟩ := hp
  cases s1 : e.usersOk <;> cases s2 : e.serversOk <;> cases s3 : e.seriesOk <;>
    cases s4 : e.bufferLoadOk <;> cases s5 : e.bufferOpenOk <;>
      cases s6 : e.shardsOk <;>
        simp_all [processEntry, stagesOk]

/-- A candidate whose whole pipeline succeeds continues the loop with
the new instance appended. -/
theorem processEntry_success (base : Str) (e : Candidate) (acc : LoadResult)
    (h : entryLoaded e = true) (hp : preAppendOk e = true)
    (hs : stagesOk e = true) :
    processEntry base e acc =
      .cont { rc := acc.rc, registry := acc.registry ++ [mkInstance base e],
              loaded := acc.loaded ++ [e.name],
              mkdirCalls := acc.mkdirCalls,
              logErrors := acc.logErrors } := by
  obtain ⟨h1, h2, h3, h4⟩ := entryLoaded_destruct h
  simp only [preAppendOk, Bool.and_eq_true] at hp
  obtain ⟨⟨hc, hd⟩, hf⟩ := hp
  simp only [stagesOk, Bool.and_eq_true] at hs
  obtain ⟨⟨⟨⟨⟨s1, s2⟩, s3⟩, s4⟩, s5⟩, s6⟩ := hs
  simp [processEntry, h1, h2, h3, h4, hc, hd, hf, s1, s2, s3, s4, s5, s6]

/-- Any candidate reaching the pipeline records its name as loaded. -/
theorem processEntry_pass_loaded (base : Str) (e : Candidate)
    (acc : LoadResult) (h : entryLoaded e = true) :
    (processEntry base e acc).acc.loaded = acc.loaded ++ [e.name] := by
  cases hp : preAppendOk e
  · rw [processEntry_preFail base e acc h hp]; rfl
  · cases hs : stagesOk e
    · rw [processEntry_postFail base e acc h hp hs]; rfl
    · rw [processEntry_success base e acc h hp hs]; rfl

/-- A failing candidate stops the loop with return code 1 and one more
logged error. -/
theorem processEntry_fails (base : Str) (e : Candidate) (acc : LoadResult)
    (h : entryFails e = true) :
    ∃ r, processEntry base e acc = .stop r ∧ r.rc = 1 ∧
      r.logErrors = acc.logErrors + 1 := by
  have hl : entryLoaded e = true := by
    simp only [entryFails, Bool.and_eq_true] at h
    exact h.1
  cases hp : preAppendOk e
  · exact ⟨_, processEntry_preFail base e acc hl hp, rfl, rfl⟩
  · cases hs : stagesOk e
    · exact ⟨_, processEntry_postFail base e acc hl hp hs, rfl, rfl⟩
    · exfalso
      simp [entryFails, hl, hp, hs] at h

/-- The loop over entries that are all skipped is the identity. -/
theorem processEntries_skipAll (base : Str) (es : List Candidate)
    (acc : LoadResult) (h : ∀ e ∈ es, entryLoaded e = false) :
    processEntries base es acc = acc := by
  induction es with
  | nil => rfl
  | cons e rest ih =>
    simp only [processEntries,
      processEntry_skip base e acc (h e (List.mem_cons_self e rest))]
    exact ih fun e' he' => h e' (List.mem_cons_of_mem _ he')

/-- The loop never touches the record of `mkdir` calls. -/
theorem processEntry_acc_mkdirCalls (base : Str) (e : Candidate)
    (acc : LoadResult) :
    (processEntry base e acc).acc.mkdirCalls = acc.mkdirCalls := by
  cases hl : entryLoaded e
  · rw [processEntry_skip base e acc hl]; rfl
  · cases hp : preAppendOk e
    · rw [processEntry_preFail base e acc hl hp]; rfl
    · cases hs : stagesOk e
      · rw [processEntry_postFail base e acc hl hp hs]; rfl
      · rw [processEntry_success base e acc hl hp hs]; rfl

/-- The whole loop never touches the record of `mkdir` calls. -/
theorem processEntries_mkdirCalls (base : Str) (es : List Candidate)
    (acc : LoadResult) :
    (processEntries base es acc).mkdirCalls = acc.mkdirCalls := by
  induction es generalizing acc with
  | nil => rfl
  | cons e rest ih =>
    have hstep := processEntry_acc_mkdirCalls base e acc
    cases hpe : processEntry base e acc with
    | cont a =>
      rw [hpe] at hstep
      simp only [processEntries, hpe]
      rw [ih a]
      exact hstep
    | stop a =>
      rw [hpe] at hstep
      simpa only [processEntries, hpe] using hstep

/-- A candidate directory whose whole pipeline succeeds. -/
def cGood : Candidate :=
  { name := ['d', 'b', '1'], statOk := true, isDir := true,
    confReadable := true, confParseOk := true, datUnpackOk := true,
    fromUnpackerOk := true, dbname := ['d', 'b', '1'], bufferOption := none,
    usersOk := true, serversOk := true, seriesOk := true,
    bufferLoadOk := true, bufferOpenOk := true, shardsOk := true }

/-- A candidate whose `siridb_users_load` stage fails. -/
def cUsersFail : Candidate := { cGood with usersOk := false }

/-- A candidate whose `cfgparser_read` stage fails. -/
def cConfFail : Candidate := { cGood with confParseOk := false }

/-- A directory entry named `"..b"`: not `"."`, not `".."`, not
double-underscore prefixed, a directory with a readable conf. -/
def cDotsB : Candidate := { cGood with name := ['.', '.', 'b'] }

/-- A container with a single candidate whose users stage fails. -/
def envUsersFail : Env :=
  { defaultDbPath := ['/', 'd', 'b', '/'], baseExists := true,
    mkdirOk := true, opendirOk := true, entries := [cUsersFail] }

/-- A `siri_start` environment whose database load fails at the config
parse of its only candidate. -/
def sLoadFail : StartEnv :=
  { loadEnv := { defaultDbPath := ['/'], baseExists := true,
                 mkdirOk := true, opendirOk := true,
                 entries := [cConfFail] },
    handles := [], bserverRc := 0, clserverRc := 0 }

/-- A `siri_start` environment whose load succeeds and whose back-end
server init fails with code 1. -/
def sBserverFail : StartEnv :=
  { loadEnv := { defaultDbPath := ['/'], baseExists := true,
                 mkdirOk := true, opendirOk := true, entries := [] },
    handles := [⟨HandleType.tcp, true⟩], bserverRc := 1, clserverRc := 0 }

/-- C1 counterexample: a candidate whose users stage fails is already in
the registry when `siridb_load_databases` returns — the claim that no
entry for a failing candidate is registry-visible is false. -/
theorem C1_counterexample :
    (siridb_load_databases envUsersFail).rc = 1 ∧
    (siridb_load_databases envUsersFail).registry =
      [{ dbname := ['d', 'b', '1'],
         dbpath := ['/', 'd', 'b', '/', 'd', 'b', '1', '/'],
         bufferPath := ['/', 'd', 'b', '/', 'd', 'b', '1', '/'] }] := by
  decide

/-- C1 (amended): a candidate failing before the registry append
(config parse, metadata unpack, metadata parse) leaves the registry
unchanged; a candidate failing at users, servers, series, buffer load,
buffer open or shards has already been appended, so the partially
loaded instance stays registry-visible. -/
theorem C1_registry_visibility (base : Str) (e : Candidate)
    (acc : LoadResult) (h : entryLoaded e = true) :
    (preAppendOk e = false →
      (processEntry base e acc).acc.registry = acc.registry ∧
      (processEntry base e acc).acc.rc = 1) ∧
    (preAppendOk e = true → stagesOk e = false →
      (processEntry base e acc).acc.registry =
        acc.registry ++ [mkInstance base e] ∧
      (processEntry base e acc).acc.rc = 1) := by
  constructor
  · intro hp
    rw [processEntry_preFail base e acc h hp]
    exact ⟨rfl, rfl⟩
  · intro hp hs
    rw [processEntry_postFail base e acc h hp hs]
    exact ⟨rfl, rfl⟩

/-- C1 witness: the amended statement evaluated on a config-parse
failure (registry unchanged) and a users failure (instance visible). -/
theorem C1_registry_visibility_witness :
    entryLoaded cConfFail = true ∧ preAppendOk cConfFail = false ∧
    (processEntry ['/'] cConfFail emptyResult).acc.registry =
      emptyResult.registry ∧
    entryLoaded cUsersFail = true ∧ preAppendOk cUsersFail = true ∧
    stagesOk cUsersFail = false ∧
    (processEntry ['/'] cUsersFail emptyResult).acc.registry =
      emptyResult.registry ++ [mkInstance ['/'] cUsersFail] :=
  ⟨by decide, by decide,
   ((C1_registry_visibility ['/'] cConfFail emptyResult (by decide)).1
      (by decide)).1,
   by decide, by decide, by decide,
   ((C1_registry_visibility ['/'] cUsersFail emptyResult (by decide)).2
      (by decide) (by decide)).1⟩

/-- C2: a candidate failing any pipeline stage stops the readdir loop at
once — the result does not depend on the remaining entries — with
return code 1 and one more logged error; and when
`siridb_load_databases` returns non-zero, `siri_start` returns that
code with no loop init, no listener init and no `uv_run` in its
trace. -/
theorem C2_fail_fast (base : Str) (e : Candidate)
    (rest rest' : List Candidate) (acc : LoadResult) (s : StartEnv) :
    (entryFails e = true →
      processEntries base (e :: rest) acc =
        processEntries base (e :: rest') acc ∧
      (processEntries base (e :: rest) acc).rc = 1 ∧
      (processEntries base (e :: rest) acc).logErrors =
        acc.logErrors + 1) ∧
    ((siridb_load_databases s.loadEnv).rc ≠ 0 →
      (siri_start s).1 = (siridb_load_databases s.loadEnv).rc ∧
      Ev.loopInit ∉ (siri_start s).2 ∧
      Ev.bserverInit ∉ (siri_start s).2 ∧
      Ev.clserverInit ∉ (siri_start s).2 ∧
      Ev.uvRun ∉ (siri_start s).2) := by
  constructor
  · intro hf
    obtain ⟨r, hr, hrc, hlog⟩ := processEntry_fails base e acc hf
    refine ⟨?_, ?_, ?_⟩ <;> simp only [processEntries, hr] <;> assumption
  · intro hrc
    have : siri_start s =
        ((siridb_load_databases s.loadEnv).rc,
          [Ev.initListenerTables, Ev.initProps, Ev.initAggregates,
           Ev.compileGrammar, Ev.llistNew, Ev.fhNew, Ev.loadDatabases]) := by
      unfold siri_start
      rw [if_pos hrc]
    rw [this]
    refine ⟨rfl, ?_, ?_, ?_, ?_⟩ <;> simp

/-- Negation of the name filter as a proposition. -/
theorem skipByName_eq_false_iff (s : Str) :
    skipByName s = false ↔
      s ≠ ['.'] ∧ ¬(2 ≤ s.length ∧ s.take 2 = ['.', '.']) ∧
        ¬(2 ≤ s.length ∧ s.take 2 = ['_', '_']) := by
  rw [← Bool.not_eq_true, skipByName_iff]
  simp only [not_or]

/-- C2 witness: the fail-fast lemma at a users-stage failure followed by
a healthy candidate, and the startup propagation at a config-parse
failure. -/
theorem C2_fail_fast_witness :
    entryFails cUsersFail = true ∧
    (processEntries [] [cUsersFail, cGood] emptyResult).rc = 1 ∧
    processEntries [] [cUsersFail, cGood] emptyResult =
      processEntries [] [cUsersFail] emptyResult ∧
    (siridb_load_databases sLoadFail.loadEnv).rc ≠ 0 ∧
    (siri_start sLoadFail).1 = (siridb_load_databases sLoadFail.loadEnv).rc ∧
    Ev.uvRun ∉ (siri_start sLoadFail).2 :=
  ⟨by decide,
   ((C2_fail_fast [] cUsersFail [cGood] [] emptyResult sLoadFail).1
      (by decide)).2.1,
   ((C2_fail_fast [] cUsersFail [cGood] [] emptyResult sLoadFail).1
      (by decide)).1,
   by decide,
   ((C2_fail_fast [] cUsersFail [cGood] [] emptyResult sLoadFail).2
      (by decide)).1,
   ((C2_fail_fast [] cUsersFail [cGood] [] emptyResult sLoadFail).2
      (by decide)).2.2.2.2⟩

/-- C3 counterexample: the entry named `"..b"` is a directory with a
readable `database.conf`, its name is neither `"."` nor `".."` and does
not start with `"__"`, yet the name filter skips it, so it is never
passed to the load pipeline — the claim's "exactly when" fails. -/
theorem C3_counterexample :
    cDotsB.name ≠ ['.'] ∧ cDotsB.name ≠ ['.', '.'] ∧
    cDotsB.name.take 2 ≠ ['_', '_'] ∧
    cDotsB.statOk = true ∧ cDotsB.isDir = true ∧
    cDotsB.confReadable = true ∧
    processEntry ['/'] cDotsB emptyResult = .cont emptyResult ∧
    (processEntry ['/'] cDotsB emptyResult).acc.loaded = [] := by
  decide

/-- C3 (amended): an entry is passed to the load pipeline exactly when
its name is not `"."`, its first two characters are neither `".."` nor
`"__"`, its `fstatat` succeeds on a directory, and `database.conf` is
readable; every other entry is skipped silently, the loop state
untouched. -/
theorem C3_loader_filter (base : Str) (e : Candidate) (acc : LoadResult) :
    ((processEntry base e acc).acc.loaded = acc.loaded ++ [e.name] ↔
      (e.name ≠ ['.'] ∧
       ¬(2 ≤ e.name.length ∧ e.name.take 2 = ['.', '.']) ∧
       ¬(2 ≤ e.name.length ∧ e.name.take 2 = ['_', '_']) ∧
       e.statOk = true ∧ e.isDir = true ∧ e.confReadable = true)) ∧
    (entryLoaded e = false → processEntry base e acc = .cont acc) := by
  have hladd : acc.loaded ≠ acc.loaded ++ [e.name] := by
    intro hEq
    have := congrArg List.length hEq
    simp at this
  constructor
  · constructor
    · intro h
      have hEL : entryLoaded e = true := by
        by_contra hn
        have hf : entryLoaded e = false := Bool.eq_false_iff.mpr hn
        rw [processEntry_skip base e acc hf] at h
        exact hladd h
      obtain ⟨h1, h2, h3, h4⟩ := entryLoaded_destruct hEL
      have hn := (skipByName_eq_false_iff e.name).mp h1
      exact ⟨hn.1, hn.2.1, hn.2.2, h2, h3, h4⟩
    · rintro ⟨n1, n2, n3, h2, h3, h4⟩
      have h1 : skipByName e.name = false :=
        (skipByName_eq_false_iff e.name).mpr ⟨n1, n2, n3⟩
      have hEL : entryLoaded e = true := by
        simp [entryLoaded, h1, h2, h3, h4]
      exact processEntry_pass_loaded base e acc hEL
  · exact processEntry_skip base e acc

/-- C3 witness: the amended filter evaluated on a healthy candidate
(passed) and on the `"..b"` entry (skipped silently). -/
theorem C3_loader_filter_witness :
    (processEntry [] cGood emptyResult).acc.loaded =
      emptyResult.loaded ++ [cGood.name] ∧
    entryLoaded cDotsB = false ∧
    processEntry [] cDotsB emptyResult = .cont emptyResult :=
  ⟨(C3_loader_filter [] cGood emptyResult).1.mpr (by decide),
   by decide,
   (C3_loader_filter [] cDotsB emptyResult).2 (by decide)⟩

/-- C4: a candidate whose whole pipeline succeeds is appended as the
instance whose `dbpath` is the base path plus the directory name plus a
path separator (so `dbpath` ends with `'/'`), and whose `buffer_path`
is the `buffer.buffer_path` option value exactly when that option is
present and of string type, else `dbpath`. -/
theorem C4_instance_paths (base : Str) (e : Candidate) (acc : LoadResult)
    (h : entryLoaded e = true) (hp : preAppendOk e = true)
    (hs : stagesOk e = true) :
    (processEntry base e acc).acc.registry =
      acc.registry ++ [mkInstance base e] ∧
    (mkInstance base e).dbpath = base ++ e.name ++ ['/'] ∧
    (mkInstance base e).dbpath.getLast? = some '/' ∧
    (∀ tp v, e.bufferOption = some (tp, v) → tp = CfgTp.string →
      (mkInstance base e).bufferPath = v) ∧
    (∀ tp v, e.bufferOption = some (tp, v) → tp ≠ CfgTp.string →
      (mkInstance base e).bufferPath = (mkInstance base e).dbpath) ∧
    (e.bufferOption = none →
      (mkInstance base e).bufferPath = (mkInstance base e).dbpath) := by
  refine ⟨?_, rfl, ?_, ?_, ?_, ?_⟩
  · rw [processEntry_success base e acc h hp hs]; rfl
  · show (base ++ e.name ++ ['/']).getLast? = some '/'
    rw [List.getLast?_concat]
  · intro tp v ho ht
    simp [mkInstance, ho, ht]
  · intro tp v ho ht
    simp [mkInstance, ho, ht]
  · intro ho
    simp [mkInstance, ho]

/-- A successful candidate whose configuration carries a string-typed
`buffer.buffer_path` override. -/
def cBufOver : Candidate :=
  { cGood with bufferOption := some (CfgTp.string, ['/', 'b', '/']) }

/-- C4 witness: the path properties evaluated on a candidate with a
string-typed buffer-path override. -/
theorem C4_instance_paths_witness :
    entryLoaded cBufOver = true ∧ preAppendOk cBufOver = true ∧
    stagesOk cBufOver = true ∧
    (processEntry ['/', 'd', '/'] cBufOver emptyResult).acc.registry =
      emptyResult.registry ++ [mkInstance ['/', 'd', '/'] cBufOver] ∧
    (mkInstance ['/', 'd', '/'] cBufOver).bufferPath = ['/', 'b', '/'] ∧
    (mkInstance ['/', 'd', '/'] cBufOver).dbpath.getLast? = some '/' :=
  ⟨by decide, by decide, by decide,
   (C4_instance_paths ['/', 'd', '/'] cBufOver emptyResult (by decide)
      (by decide) (by decide)).1,
   (C4_instance_paths ['/', 'd', '/'] cBufOver emptyResult (by decide)
      (by decide) (by decide)).2.2.2.1 CfgTp.string ['/', 'b', '/'] rfl rfl,
   (C4_instance_paths ['/', 'd', '/'] cBufOver emptyResult (by decide)
      (by decide) (by decide)).2.2.1⟩

/-- C10: any entry of length at least 2 whose first two characters are
`".."` is skipped by the name filter; an entry beginning with a single
`'.'` (first two characters not `".."`) is not excluded by the name
filter and, when it is a readable-conf directory, reaches the load
pipeline. -/
theorem C10_prefix_filter (base : Str) (e : Candidate) (acc : LoadResult) :
    (2 ≤ e.name.length → e.name.take 2 = ['.', '.'] →
      skipByName e.name = true ∧ processEntry base e acc = .cont acc) ∧
    (2 ≤ e.name.length → e.name.take 1 = ['.'] →
      e.name.take 2 ≠ ['.', '.'] →
      skipByName e.name = false ∧
      (e.statOk = true → e.isDir = true → e.confReadable = true →
        (processEntry base e acc).acc.loaded = acc.loaded ++ [e.name])) := by
  constructor
  · intro hl ht
    have hs : skipByName e.name = true :=
      (skipByName_iff _).mpr (Or.inr (Or.inl ⟨hl, ht⟩))
    refine ⟨hs, processEntry_skip base e acc ?_⟩
    simp [entryLoaded, hs]
  · intro hl h1 h2
    have hne : e.name ≠ ['.'] := by
      intro hEq
      rw [hEq] at hl
      simp at hl
    have hnu : ¬(2 ≤ e.name.length ∧ e.name.take 2 = ['_', '_']) := by
      rintro ⟨_, hu⟩
      have htt : (e.name.take 2).take 1 = e.name.take 1 := by
        simp [List.take_take]
      rw [hu, h1] at htt
      simp at htt
    have hs : skipByName e.name = false :=
      (skipByName_eq_false_iff _).mpr ⟨hne, fun hc => h2 hc.2, hnu⟩
    refine ⟨hs, fun h2' h3 h4 => processEntry_pass_loaded base e acc ?_⟩
    simp [entryLoaded, hs, h2', h3, h4]

/-- A hidden directory entry `".h"`: dot-prefixed but not `".."`. -/
def cHidden : Candidate := { cGood with name := ['.', 'h'] }

/-- C10 witness: the filter evaluated on `"..b"` (skipped) and on the
hidden directory `".h"` (passed to the pipeline). -/
theorem C10_prefix_filter_witness :
    (2 ≤ cDotsB.name.length ∧ cDotsB.name.take 2 = ['.', '.'] ∧
      skipByName cDotsB.name = true) ∧
    (2 ≤ cHidden.name.length ∧ cHidden.name.take 1 = ['.'] ∧
      skipByName cHidden.name = false ∧
      (processEntry [] cHidden emptyResult).acc.loaded =
        emptyResult.loaded ++ [cHidden.name]) :=
  ⟨⟨by decide, by decide,
    ((C10_prefix_filter [] cDotsB emptyResult).1 (by decide) (by decide)).1⟩,
   ⟨by decide, by decide,
    ((C10_prefix_filter [] cHidden emptyResult).2 (by decide) (by decide)
       (by decide)).1,
    ((C10_prefix_filter [] cHidden emptyResult).2 (by decide) (by decide)
       (by decide)).2 (by decide) (by decide) (by decide)⟩⟩

/-- C7 counterexample: when the back-end listener init fails,
`siri_start` returns its error code but never cancels the optimize or
heartbeat task — the claim that the shutdown sequence "including
cancelling both periodic background tasks" runs is false. -/
theorem C7_counterexample :
    (siri_start sBserverFail).1 = 1 ∧
    Ev.cancelOptimize ∉ (siri_start sBserverFail).2 ∧
    Ev.cancelHeartbeat ∉ (siri_start sBserverFail).2 := by
  decide

/-- C7 (amended): when either listener init returns non-zero,
`siri_start` runs `close_handlers` — closing every live reactor handle
and draining the loop once — and returns the listener's error code
without reaching `uv_run`; the periodic tasks are neither initialized
nor cancelled, since their init comes only after both listeners
succeed. -/
theorem C7_listener_failure (s : StartEnv)
    (hload : (siridb_load_databases s.loadEnv).rc = 0) :
    (s.bserverRc ≠ 0 →
      (siri_start s).1 = s.bserverRc ∧
      (siri_start s).2 =
        [Ev.initListenerTables, Ev.initProps, Ev.initAggregates,
         Ev.compileGrammar, Ev.llistNew, Ev.fhNew, Ev.loadDatabases,
         Ev.loopInit, Ev.signalInit 0, Ev.signalInit 1, Ev.signalInit 2,
         Ev.bserverInit] ++ close_handlers s.handles ∧
      Ev.uvRunDrain ∈ (siri_start s).2 ∧
      (∀ h ∈ s.handles,
        Ev.closeHandle h.type h.dataIsNull (walk_close_handlers h) ∈
          (siri_start s).2) ∧
      Ev.uvRun ∉ (siri_start s).2 ∧
      Ev.optimizeInit ∉ (siri_start s).2 ∧
      Ev.heartbeatInit ∉ (siri_start s).2 ∧
      Ev.cancelOptimize ∉ (siri_start s).2 ∧
      Ev.cancelHeartbeat ∉ (siri_start s).2) ∧
    (s.bserverRc = 0 → s.clserverRc ≠ 0 →
      (siri_start s).1 = s.clserverRc ∧
      (siri_start s).2 =
        [Ev.initListenerTables, Ev.initProps, Ev.initAggregates,
         Ev.compileGrammar, Ev.llistNew, Ev.fhNew, Ev.loadDatabases,
         Ev.loopInit, Ev.signalInit 0, Ev.signalInit 1, Ev.signalInit 2,
         Ev.bserverInit, Ev.clserverInit] ++ close_handlers s.handles ∧
      Ev.uvRunDrain ∈ (siri_start s).2 ∧
      Ev.uvRun ∉ (siri_start s).2 ∧
      Ev.cancelOptimize ∉ (siri_start s).2 ∧
      Ev.cancelHeartbeat ∉ (siri_start s).2) := by
  constructor
  · intro hb
    have hstart : siri_start s =
        (s.bserverRc,
          [Ev.initListenerTables, Ev.initProps, Ev.initAggregates,
           Ev.compileGrammar, Ev.llistNew, Ev.fhNew, Ev.loadDatabases,
           Ev.loopInit, Ev.signalInit 0, Ev.signalInit 1, Ev.signalInit 2,
           Ev.bserverInit] ++ close_handlers s.handles) := by
      unfold siri_start
      rw [if_neg (by simp [hload]), if_pos hb]
      rfl
    rw [hstart]
    refine ⟨rfl, rfl, ?_, ?_, ?_, ?_, ?_, ?_, ?_⟩
    · simp [close_handlers]
    · intro h hh
      simp only [close_handlers, List.mem_append, List.mem_map]
      exact Or.inr (Or.inl ⟨h, hh, rfl⟩)
    all_goals simp [close_handlers, List.mem_append, List.mem_map]
  · intro hb hc
    have hstart : siri_start s =
        (s.clserverRc,
          [Ev.initListenerTables, Ev.initProps, Ev.initAggregates,
           Ev.compileGrammar, Ev.llistNew, Ev.fhNew, Ev.loadDatabases,
           Ev.loopInit, Ev.signalInit 0, Ev.signalInit 1, Ev.signalInit 2,
           Ev.bserverInit, Ev.clserverInit] ++ close_handlers s.handles) := by
      unfold siri_start
      rw [if_neg (by simp [hload]), if_neg (by simp [hb]), if_pos hc]
      rfl
    rw [hstart]
    refine ⟨rfl, rfl, ?_, ?_, ?_, ?_⟩
    all_goals simp [close_handlers, List.mem_append, List.mem_map]

/-- C7 witness: the amended statement evaluated on a back-end listener
failure with one live TCP handle. -/
theorem C7_listener_failure_witness :
    (siridb_load_databases sBserverFail.loadEnv).rc = 0 ∧
    sBserverFail.bserverRc ≠ 0 ∧
    (siri_start sBserverFail).1 = sBserverFail.bserverRc ∧
    Ev.uvRunDrain ∈ (siri_start sBserverFail).2 ∧
    Ev.uvRun ∉ (siri_start sBserverFail).2 :=
  ⟨by decide, by decide,
   ((C7_listener_failure sBserverFail (by decide)).1 (by decide)).1,
   ((C7_listener_failure sBserverFail (by decide)).1 (by decide)).2.2.1,
   ((C7_listener_failure sBserverFail (by decide)).1
      (by decide)).2.2.2.2.1⟩

/-- C8: when the container path does not exist, `siridb_load_databases`
calls `mkdir` with mode `0700`; if that fails it returns 1 with an empty
registry; if it succeeds and no entry survives the candidate filter, it
returns 0 with the registry left empty. -/
theorem C8_base_creation (env : Env) (h : env.baseExists = false) :
    (siridb_load_databases env).mkdirCalls =
      [(env.defaultDbPath, 0o700)] ∧
    (env.mkdirOk = false →
      (siridb_load_databases env).rc = 1 ∧
      (siridb_load_databases env).registry = []) ∧
    (env.mkdirOk = true → env.opendirOk = true →
      (∀ e ∈ env.entries, entryLoaded e = false) →
      (siridb_load_databases env).rc = 0 ∧
      (siridb_load_databases env).registry = []) := by
  refine ⟨?_, ?_, ?_⟩
  · cases hm : env.mkdirOk
    · simp [siridb_load_databases, h, hm]
    · cases ho : env.opendirOk
      · simp [siridb_load_databases, h, hm, ho]
      · simp [siridb_load_databases, h, hm, ho, processEntries_mkdirCalls]
  · intro hm
    simp [siridb_load_databases, h, hm, emptyResult]
  · intro hm ho hall
    have hrun : siridb_load_databases env =
        processEntries env.defaultDbPath env.entries
          { rc := 0, registry := [], loaded := [],
            mkdirCalls := [(env.defaultDbPath, 0o700)], logErrors := 0 } := by
      simp [siridb_load_databases, emptyResult, h, hm, ho]
    rw [hrun, processEntries_skipAll _ _ _ hall]
    exact ⟨rfl, rfl⟩

/-- A container whose base path does not yet exist, `readdir` later
yielding only `"."` and `".."`. -/
def envNoBase : Env :=
  { defaultDbPath := ['/', 'x', '/'], baseExists := false, mkdirOk := true,
    opendirOk := true,
    entries := [{ cGood with name := ['.'] },
                { cGood with name := ['.', '.'] }] }

/-- C8 witness: the creation scenario evaluated on a fresh base path. -/
theorem C8_base_creation_witness :
    envNoBase.baseExists = false ∧
    (siridb_load_databases envNoBase).mkdirCalls =
      [(envNoBase.defaultDbPath, 0o700)] ∧
    (siridb_load_databases envNoBase).rc = 0 ∧
    (siridb_load_databases envNoBase).registry = [] :=
  ⟨rfl, (C8_base_creation envNoBase rfl).1,
   ((C8_base_creation envNoBase rfl).2.2 rfl rfl (by decide)).1,
   ((C8_base_creation envNoBase rfl).2.2 rfl rfl (by decide)).2⟩

/-- C9: `siri_free` skips `uv_loop_close` exactly when the loop pointer
is NULL, and in every case frees the loop pointer, the grammar and the
file handler, and tears down the registry running the destructor on
every member. -/
theorem C9_free_teardown (loopIsNull : Bool) (registry : List SiriDB) :
    (loopIsNull = true →
      Ev.uvLoopClose ∉ siri_free loopIsNull registry) ∧
    (loopIsNull = false →
      Ev.uvLoopClose ∈ siri_free loopIsNull registry) ∧
    Ev.freeLoop ∈ siri_free loopIsNull registry ∧
    Ev.freeGrammar ∈ siri_free loopIsNull registry ∧
    Ev.fhFree ∈ siri_free loopIsNull registry ∧
    (∀ db ∈ registry,
      Ev.destroyInstance db ∈ siri_free loopIsNull registry) ∧
    siri_free true registry =
      [Ev.freeLoop, Ev.freeGrammar, Ev.fhFree] ++
        registry.map Ev.destroyInstance ∧
    siri_free false registry =
      [Ev.uvLoopClose, Ev.freeLoop, Ev.freeGrammar, Ev.fhFree] ++
        registry.map Ev.destroyInstance := by
  refine ⟨?_, ?_, ?_, ?_, ?_, ?_, rfl, rfl⟩
  · intro h
    subst h
    simp [siri_free, llist_free_cb]
  · intro h
    subst h
    simp [siri_free, llist_free_cb]
  · cases loopIsNull <;> simp [siri_free, llist_free_cb]
  · cases loopIsNull <;> simp [siri_free, llist_free_cb]
  · cases loopIsNull <;> simp [siri_free, llist_free_cb]
  · intro db hdb
    cases loopIsNull <;>
      · simp only [siri_free, llist_free_cb, List.mem_append, List.mem_map]
        exact Or.inr ⟨db, hdb, rfl⟩

/-- C9 witness: teardown with a never-created loop and one registered
instance. -/
theorem C9_free_teardown_witness :
    Ev.uvLoopClose ∉ siri_free true [mkInstance ['/'] cGood] ∧
    Ev.destroyInstance (mkInstance ['/'] cGood) ∈
      siri_free true [mkInstance ['/'] cGood] ∧
    Ev.fhFree ∈ siri_free true [mkInstance ['/'] cGood] :=
  ⟨(C9_free_teardown true [mkInstance ['/'] cGood]).1 rfl,
   (C9_free_teardown true [mkInstance ['/'] cGood]).2.2.2.2.2.1
     (mkInstance ['/'] cGood) (List.mem_singleton.mpr rfl),
   (C9_free_teardown true [mkInstance ['/'] cGood]).2.2.2.2.1⟩
